import Mathlib

/-!
Shallow embedding of `src/mcp_resource_server/resources.py` from the
`mcp_resource_server` repository, together with proofs of the claims about
its image-resize and blob-resource operations.

Conventions of the embedding:
* Python `int` dimensions and byte counts are `ℕ` (all call sites are
  non-negative); quality values are `ℤ` because the API accepts arbitrary
  integers there.
* Python float division inside `_calculate_resize_dimensions` and
  `_estimate_compressed_size` is modelled with exact rational arithmetic
  (`ℚ`); Python `int(x)` truncation of the non-negative quantities involved
  is `Int.floor` followed by `Int.toNat`.  (For the one place a negative
  product can arise — a negative quality in `_estimate_compressed_size` —
  truncation toward zero and this modelling both end below the
  `max _ 100` clamp, so the results agree.)
* Byte strings are `List ℕ`; the PIL library calls (decode dimensions,
  detect format, resize + re-encode) are a parameter structure `PILModel`,
  and the blob store is a lookup function / `StorageModel` parameter, so
  "the operation never touches the store / never decodes" is expressed as
  the result being the same for every such parameter.
* `fastmcp.ToolError` failures are the `Err` inductive; each constructor
  is one distinguishable error message family of the source.
-/

/-- Constant `DEFAULT_MAX_DIMENSION = 1920` (resources.py line 28). -/
def DEFAULT_MAX_DIMENSION : ℕ := 1920

/-- Constant `DEFAULT_MAX_HEIGHT = 1080` (resources.py line 29). -/
def DEFAULT_MAX_HEIGHT : ℕ := 1080

/-- Constant `DEFAULT_JPEG_QUALITY = 85` (resources.py line 30). -/
def DEFAULT_JPEG_QUALITY : ℤ := 85

/-- Constant `MIN_JPEG_QUALITY = 1` (resources.py line 31). -/
def MIN_JPEG_QUALITY : ℤ := 1

/-- Constant `MAX_JPEG_QUALITY = 100` (resources.py line 32). -/
def MAX_JPEG_QUALITY : ℤ := 100

/-- The effective-constraint selection of `_calculate_resize_dimensions`
(resources.py lines 201-216): `None` on one axis means "no constraint on
that axis", `0` falls back to the original dimension of that axis, both
`None` selects the 1920×1080 default box. -/
def effectiveBounds (originalWidth originalHeight : ℕ)
    (maxWidth maxHeight : Option ℕ) : ℕ × ℕ :=
  match maxWidth, maxHeight with
  | none, none => (DEFAULT_MAX_DIMENSION, DEFAULT_MAX_HEIGHT)
  | none, some mh => (originalWidth, if mh = 0 then originalHeight else mh)
  | some mw, none => (if mw = 0 then originalWidth else mw, originalHeight)
  | some mw, some mh =>
      (if mw = 0 then originalWidth else mw,
       if mh = 0 then originalHeight else mh)

/-- Embedding of `_calculate_resize_dimensions` (resources.py lines 167-230): early
return when both constraints are literally `0`, effective-bound selection,
the never-upscale check, then one shared scale factor
`min(eff_w/orig_w, eff_h/orig_h)` and floored, `max 1`-clamped targets. -/
def calculateResizeDimensions (originalWidth originalHeight : ℕ)
    (maxWidth maxHeight : Option ℕ) : ℕ × ℕ × Bool :=
  if maxWidth = some 0 ∧ maxHeight = some 0 then
    (originalWidth, originalHeight, false)
  else
    let eff := effectiveBounds originalWidth originalHeight maxWidth maxHeight
    if originalWidth ≤ eff.1 ∧ originalHeight ≤ eff.2 then
      (originalWidth, originalHeight, false)
    else
      let widthRatio : ℚ := (eff.1 : ℚ) / (originalWidth : ℚ)
      let heightRatio : ℚ := (eff.2 : ℚ) / (originalHeight : ℚ)
      let scale := min widthRatio heightRatio
      let newWidth := max 1 ⌊(originalWidth : ℚ) * scale⌋.toNat
      let newHeight := max 1 ⌊(originalHeight : ℚ) * scale⌋.toNat
      (newWidth, newHeight, true)

example : calculateResizeDimensions 2048 1536 (some 1024) (some 1024) = (1024, 768, true) := by
  norm_num [calculateResizeDimensions, effectiveBounds, min_def]
  all_goals decide

example : calculateResizeDimensions 2048 1536 none (some 768) = (1024, 768, true) := by
  norm_num [calculateResizeDimensions, effectiveBounds, min_def]
  all_goals decide

example : calculateResizeDimensions 100 50 none none = (100, 50, false) := by
  norm_num [calculateResizeDimensions, effectiveBounds, DEFAULT_MAX_DIMENSION, DEFAULT_MAX_HEIGHT]

/-- The distinguishable `ToolError` failure families raised in resources.py.
Each constructor corresponds to one `raise ToolError(...)` message family. -/
inductive Err : Type
  /-- Message "blob_id is required" (line 71). -/
  | blobIdRequired : Err
  /-- Message "Blob not found in storage" or file missing (lines 93-95). -/
  | blobNotFound : Err
  /-- Message "Blob is not an image (content-type: ...)" (lines 390, 439, 524). -/
  | notAnImage : Option String → Err
  /-- Message "quality must be between 1 and 100" (line 325). -/
  | invalidQuality : Err
  /-- Failure of `PILImage.open` to parse the bytes. -/
  | decodeError : Err
  /-- Message "data is required and cannot be empty" (lines 655, 741). -/
  | emptyData : Err
  /-- Message "filename is required" (lines 657, 743). -/
  | emptyFilename : Err
  /-- storage-layer failure surfaced at the operation boundary. -/
  | storageError : Err
deriving DecidableEq

/-- A stored blob as the read path sees it: raw bytes plus the metadata
fields `_get_blob_bytes` extracts (`mime_type`, `filename`, lines 85-86). -/
structure Blob : Type where
  data : List ℕ
  mimeType : Option String
  filename : Option String

/-- Result of `PILImage.open`: the pixel dimensions `img.size` and the
detected format `img.format` (which PIL reports as `None` for some
sources). -/
structure PILDecoded : Type where
  width : ℕ
  height : ℕ
  format : Option String := none

/-- The PIL library boundary, kept abstract: `decode` is `PILImage.open`
(`none` = undecodable bytes), `resizeEncode` is
`img.resize((w,h), LANCZOS)` followed by `img.save(format, **kwargs)` —
its arguments are the bytes, target size, normalized PIL format and the
effective JPEG quality the source passes to `save`. -/
structure PILModel : Type where
  decode : List ℕ → Option PILDecoded
  resizeEncode : List ℕ → ℕ × ℕ → String → Option ℤ → List ℕ

/-- The blob-store lookup that backs `_get_blob_bytes`: identifier to
stored blob, `none` when the identifier resolves to nothing. -/
def BlobStore : Type := String → Option Blob

/-- Embedding of `_get_blob_bytes` (resources.py lines 57-97): reject an empty
`blob_id`, then resolve bytes + mime type + filename through the store. -/
def getBlobBytes (store : BlobStore) (blobId : String) :
    Except Err (List ℕ × Option String × Option String) :=
  if blobId = "" then .error .blobIdRequired
  else
    match store blobId with
    | none => .error .blobNotFound
    | some b => .ok (b.data, b.mimeType, b.filename)

/-- Embedding of `_validate_quality` (resources.py lines 322-325): rejects a provided
quality outside `[MIN_JPEG_QUALITY, MAX_JPEG_QUALITY]`; `None` passes. -/
def validateQuality (quality : Option ℤ) : Except Err Unit :=
  match quality with
  | some q =>
      if q < MIN_JPEG_QUALITY ∨ q > MAX_JPEG_QUALITY then .error .invalidQuality
      else .ok ()
  | none => .ok ()

/-- ASCII lower-casing of one character, as Python `str.lower` acts on the
ASCII format/mime strings this code handles. -/
def pyLowerChar (c : Char) : Char :=
  if 65 ≤ c.toNat ∧ c.toNat ≤ 90 then Char.ofNat (c.toNat + 32) else c

/-- Python `s.lower()` for the ASCII strings this code handles. -/
def pyLower (s : String) : String := ⟨s.data.map pyLowerChar⟩

/-- ASCII upper-casing of one character, as Python `str.upper` acts on the
ASCII format strings this code handles. -/
def pyUpperChar (c : Char) : Char :=
  if 97 ≤ c.toNat ∧ c.toNat ≤ 122 then Char.ofNat (c.toNat - 32) else c

/-- Python `s.upper()` for the ASCII strings this code handles. -/
def pyUpper (s : String) : String := ⟨s.data.map pyUpperChar⟩

/-- Character-list version of Python `s.startswith(p)`. -/
def charListStartsWith : List Char → List Char → Bool
  | _, [] => true
  | [], _ :: _ => false
  | c :: cs, p :: ps => c = p && charListStartsWith cs ps

/-- Python `s.startswith(p)`. -/
def pyStartsWith (s p : String) : Bool := charListStartsWith s.data p.data

/-- Python `s.split(sep)` for a one-character separator: splits at every
occurrence, keeping empty segments (so the result list is never empty). -/
def pySplitChar (sep : Char) (l : List Char) : List (List Char) :=
  l.foldr
    (fun c acc =>
      match acc with
      | [] => [[c]]
      | cur :: rest => if c = sep then [] :: cur :: rest else (c :: cur) :: rest)
    [[]]

/-- The image-content check `not content_type or not
content_type.startswith("image/")` shared by the three image operations
(lines 389, 438, 523); Python treats both `None` and `""` as falsy. -/
def isImageContentType (contentType : Option String) : Bool :=
  match contentType with
  | none => false
  | some s => s ≠ "" && pyStartsWith s "image/"

/-- Format extraction `content_type.split("/")[-1].split(";")[0]` (lines 393, 442, 527). -/
def extractFormat (contentType : String) : String :=
  ⟨((pySplitChar ';' ((pySplitChar '/' contentType.data).getLastD [])).headD [])⟩

/-- Predicate for `image_format.lower() in ("jpeg", "jpg")` (lines 314, 550, 563). -/
def isJpegFormat (imageFormat : String) : Bool :=
  pyLower imageFormat == "jpeg" || pyLower imageFormat == "jpg"

/-- The effective quality `quality or DEFAULT_JPEG_QUALITY` passed to the
JPEG encoder (line 278) and to the size estimate (line 540): Python `or`
falls back on `None` and on the falsy `0`. -/
def qualityOrDefault (quality : Option ℤ) : ℤ :=
  match quality with
  | some q => if q ≠ 0 then q else DEFAULT_JPEG_QUALITY
  | none => DEFAULT_JPEG_QUALITY

/-- The PIL-format normalization of `_resize_image` (lines 272-274):
uppercase, with "JPG" folded into "JPEG". -/
def normalizePilFormat (imageFormat : String) : String :=
  let f := pyUpper imageFormat
  if f = "JPG" then "JPEG" else f

/-- Embedding of `_resize_image` (resources.py lines 233-287): decode, compute target
dimensions, return the input bytes untouched when no resize is needed,
otherwise resize + re-encode at the computed dimensions (the encoder gets
the effective JPEG quality only for JPEG output, matching lines 276-286). -/
def resizeImage (pil : PILModel) (imageData : List ℕ) (imageFormat : String)
    (maxWidth maxHeight : Option ℕ) (quality : Option ℤ) :
    Except Err (List ℕ × ℕ × ℕ) :=
  match pil.decode imageData with
  | none => .error .decodeError
  | some img =>
      let r := calculateResizeDimensions img.width img.height maxWidth maxHeight
      if r.2.2 = false then .ok (imageData, img.width, img.height)
      else
        let pilFormat := normalizePilFormat imageFormat
        let encQuality : Option ℤ :=
          if pilFormat = "JPEG" then some (qualityOrDefault quality) else none
        .ok (pil.resizeEncode imageData (r.1, r.2.1) pilFormat encQuality, r.1, r.2.1)

/-- Python truthiness of the optional `quality` argument (`if ... and
quality:` on line 314): `None` and `0` are falsy. -/
def qualityTruthy (quality : Option ℤ) : Bool :=
  match quality with
  | some q => q ≠ 0
  | none => false

/-- Embedding of `_estimate_compressed_size` (resources.py lines 290-319): pixel-ratio
scaling with a divide-by-zero guard, truncation, a further truncated
`quality/100` factor when the lowercased format is in `("jpeg", "jpg")`
and `quality` is truthy, then a 100-byte floor. -/
def estimateCompressedSize (originalSize : ℕ)
    (originalWidth originalHeight newWidth newHeight : ℕ)
    (imageFormat : String) (quality : Option ℤ) : ℕ :=
  let originalPixels := originalWidth * originalHeight
  let newPixels := newWidth * newHeight
  let pixelRatio : ℚ :=
    if 0 < originalPixels then (newPixels : ℚ) / (originalPixels : ℚ) else 1
  let estimated : ℕ := ⌊(originalSize : ℚ) * pixelRatio⌋.toNat
  let estimated : ℕ :=
    if isJpegFormat imageFormat = true ∧ qualityTruthy quality = true then
      ⌊(estimated : ℚ) * ((quality.getD 0 : ℚ) / 100)⌋.toNat
    else estimated
  max estimated 100

example : isJpegFormat "jpeg" = true := by decide

example : isJpegFormat "JPeG" = true := by decide

example : isJpegFormat "png" = false := by decide

example : estimateCompressedSize 227 2 1 1 1 "jpeg" (some 90) = 101 := by
  norm_num [estimateCompressedSize, show isJpegFormat "jpeg" = true from by decide,
    show qualityTruthy (some 90) = true from by decide,
    show Int.toNat 113 = 113 from by decide]
  all_goals decide

example : estimateCompressedSize 1000 2 2 2 2 "png" none = 1000 := by
  norm_num [estimateCompressedSize, show isJpegFormat "png" = false from by decide]
  all_goals decide

example : estimateCompressedSize 1000 0 5 2 2 "png" none = 1000 := by
  norm_num [estimateCompressedSize, show isJpegFormat "png" = false from by decide]
  all_goals decide

/-- The `Image(data=..., format=...)` value `get_image` returns
(resources.py line 398): bytes plus the format token. -/
structure ImageOut : Type where
  data : List ℕ
  format : String
deriving DecidableEq

/-- Embedding of `get_image` (resources.py lines 333-398): validate quality, read the
blob, require an image mime type, derive the format token, resize. -/
def getImage (pil : PILModel) (store : BlobStore) (blobId : String)
    (maxWidth maxHeight : Option ℕ) (quality : Option ℤ) :
    Except Err ImageOut :=
  match validateQuality quality with
  | .error e => .error e
  | .ok _ =>
    match getBlobBytes store blobId with
    | .error e => .error e
    | .ok (data, contentType, _) =>
      if isImageContentType contentType = false then
        .error (.notAnImage contentType)
      else
        let imageFormat := extractFormat (contentType.getD "")
        match resizeImage pil data imageFormat maxWidth maxHeight quality with
        | .error e => .error e
        | .ok (resizedData, _, _) => .ok ⟨resizedData, imageFormat⟩

/-- The success payload of `get_image_info` (resources.py lines 449-455);
the `host_path` field depends on environment configuration and is outside
this embedding. -/
structure ImageInfoResponse : Type where
  width : ℕ
  height : ℕ
  format : String
  fileSizeBytes : ℕ

/-- Embedding of `get_image_info` (resources.py lines 401-464): read the blob, require
an image mime type, decode for dimensions, no resizing. -/
def getImageInfo (pil : PILModel) (store : BlobStore) (blobId : String) :
    Except Err ImageInfoResponse :=
  match getBlobBytes store blobId with
  | .error e => .error e
  | .ok (data, contentType, _) =>
    if isImageContentType contentType = false then
      .error (.notAnImage contentType)
    else
      match pil.decode data with
      | none => .error .decodeError
      | some img =>
          .ok ⟨img.width, img.height, extractFormat (contentType.getD ""), data.length⟩

/-- The success payload of `get_image_size_estimate`
(resources.py lines 553-564). -/
structure ImageSizeEstimate : Type where
  originalWidth : ℕ
  originalHeight : ℕ
  estimatedWidth : ℕ
  estimatedHeight : ℕ
  originalSizeBytes : ℕ
  estimatedSizeBytes : ℕ
  wouldResize : Bool
  format : String
  quality : Option ℤ

/-- Embedding of `get_image_size_estimate` (resources.py lines 467-564): validate
quality, read the blob, require an image mime type, decode dimensions,
run `_calculate_resize_dimensions` + `_estimate_compressed_size` as a dry
run; the effective quality (with the `or 85` default) is reported and fed
to the estimator only for the JPEG family. -/
def getImageSizeEstimate (pil : PILModel) (store : BlobStore) (blobId : String)
    (maxWidth maxHeight : Option ℕ) (quality : Option ℤ) :
    Except Err ImageSizeEstimate :=
  match validateQuality quality with
  | .error e => .error e
  | .ok _ =>
    match getBlobBytes store blobId with
    | .error e => .error e
    | .ok (data, contentType, _) =>
      if isImageContentType contentType = false then
        .error (.notAnImage contentType)
      else
        let imageFormat := extractFormat (contentType.getD "")
        match pil.decode data with
        | none => .error .decodeError
        | some img =>
            let r := calculateResizeDimensions img.width img.height maxWidth maxHeight
            let effectiveQuality := qualityOrDefault quality
            let estQuality : Option ℤ :=
              if isJpegFormat imageFormat = true then some effectiveQuality else none
            let estSize := estimateCompressedSize data.length img.width img.height
              r.1 r.2.1 imageFormat estQuality
            .ok ⟨img.width, img.height, r.1, r.2.1, data.length, estSize, r.2.2,
              imageFormat, estQuality⟩

/-- Embedding of `get_file` (resources.py lines 567-587): raw bytes, no format
assumption, no mime-type requirement. -/
def getFile (store : BlobStore) (blobId : String) : Except Err (List ℕ) :=
  match getBlobBytes store blobId with
  | .error e => .error e
  | .ok (data, _, _) => .ok data

/-- The mapping `storage.upload_blob` returns (`blob_id`, `sha256`;
resources.py lines 668-673). -/
structure UploadResult : Type where
  blobId : String
  sha256 : String

/-- The metadata fields the upload responses read back
(resources.py lines 678-686). -/
structure BlobMetadata : Type where
  filename : String
  mimeType : String
  sizeBytes : ℕ
  expiresAt : String

/-- The blob-store write boundary used by the upload operations:
`upload_blob(data, filename, tags, ttl_hours)` and `get_metadata`,
kept abstract. -/
structure StorageModel : Type where
  uploadBlob : List ℕ → String → List String → Option ℤ → UploadResult
  getMetadata : String → Option BlobMetadata

/-- The `ResourceResponse` success payload of the upload operations
(resources.py lines 136-146). -/
structure ResourceResponse : Type where
  resourceId : String
  filename : String
  mimeType : String
  sizeBytes : ℕ
  sha256 : String
  expiresAt : String

/-- Embedding of `upload_file_resource` (resources.py lines 694-770): empty-data and
empty-filename validation, then the storage write and metadata read-back. -/
def uploadFileResource (storage : StorageModel) (data : List ℕ)
    (filename : String) (ttlHours : Option ℤ) : Except Err ResourceResponse :=
  if data = [] then .error .emptyData
  else if filename = "" then .error .emptyFilename
  else
    let result := storage.uploadBlob data filename ["resource-server", "file"] ttlHours
    match storage.getMetadata result.blobId with
    | none => .error .storageError
    | some md =>
        .ok ⟨result.blobId, md.filename, md.mimeType, md.sizeBytes,
          result.sha256, md.expiresAt⟩

/-- The format-detection of `upload_image_resource` (line 661):
`img.format.lower() if img.format else "png"` — Python truthiness, so both
`None` and `""` fall back to `"png"`. -/
def detectedFormat (fmt : Option String) : String :=
  match fmt with
  | some f => if f ≠ "" then pyLower f else "png"
  | none => "png"

/-- Embedding of `upload_image_resource` (resources.py lines 590-691): quality
validation, empty-data and empty-filename validation, format detection
from the payload, resize, then the storage write and metadata read-back. -/
def uploadImageResource (pil : PILModel) (storage : StorageModel)
    (data : List ℕ) (filename : String) (maxWidth maxHeight : Option ℕ)
    (quality : Option ℤ) (ttlHours : Option ℤ) : Except Err ResourceResponse :=
  match validateQuality quality with
  | .error e => .error e
  | .ok _ =>
    if data = [] then .error .emptyData
    else if filename = "" then .error .emptyFilename
    else
      match pil.decode data with
      | none => .error .decodeError
      | some img =>
          let imageFormat := detectedFormat img.format
          match resizeImage pil data imageFormat maxWidth maxHeight quality with
          | .error e => .error e
          | .ok (resizedData, _, _) =>
            let result := storage.uploadBlob resizedData filename
              ["resource-server", "image"] ttlHours
            match storage.getMetadata result.blobId with
            | none => .error .storageError
            | some md =>
                .ok ⟨result.blobId, md.filename, md.mimeType, md.sizeBytes,
                  result.sha256, md.expiresAt⟩

/-- The validation-error family of the error taxonomy: eager argument
checks that fire before any I/O or decode work. -/
def isValidationError : Err → Bool
  | .invalidQuality => true
  | .emptyData => true
  | .emptyFilename => true
  | _ => false

/-- The shared scale factor of the resize branch, as the spec words it:
`min(eff_w/orig_w, eff_h/orig_h)` over the effective bounds. -/
def scaleFor (w h : ℕ) (mw mh : Option ℕ) : ℚ :=
  min (((effectiveBounds w h mw mh).1 : ℚ) / (w : ℚ))
    (((effectiveBounds w h mw mh).2 : ℚ) / (h : ℚ))

/-- Helper: the `max 1 ⌊x⌋.toNat` clamp of a non-negative rational stays
within one unit below `x` and never exceeds `max 1 x`. -/
theorem floorClampBounds (x : ℚ) (hx : 0 ≤ x) :
    x - 1 < ((max 1 ⌊x⌋.toNat : ℕ) : ℚ) ∧ ((max 1 ⌊x⌋.toNat : ℕ) : ℚ) ≤ max 1 x := by
  have hf : (0 : ℤ) ≤ ⌊x⌋ := Int.floor_nonneg.2 hx
  have htn : ((⌊x⌋.toNat : ℕ) : ℚ) = ((⌊x⌋ : ℤ) : ℚ) := by
    exact_mod_cast congrArg (fun z : ℤ => (z : ℚ)) (Int.toNat_of_nonneg hf)
  have hcast : ((max 1 ⌊x⌋.toNat : ℕ) : ℚ) = max 1 ((⌊x⌋ : ℤ) : ℚ) := by
    rw [Nat.cast_max, htn, Nat.cast_one]
  constructor
  · rw [hcast]
    exact lt_of_lt_of_le (Int.sub_one_lt_floor x) (le_max_right _ _)
  · rw [hcast]
    exact max_le_max le_rfl (Int.floor_le x)

/-- Helper: when `_calculate_resize_dimensions` reports no resize, it
returns exactly the original dimensions. -/
theorem calcNoResize (w h : ℕ) (mw mh : Option ℕ)
    (hr : (calculateResizeDimensions w h mw mh).2.2 = false) :
    calculateResizeDimensions w h mw mh = (w, h, false) := by
  unfold calculateResizeDimensions at hr ⊢
  by_cases h0 : mw = some 0 ∧ mh = some 0
  · simp [h0]
  · rw [if_neg h0] at hr ⊢
    by_cases hfit : w ≤ (effectiveBounds w h mw mh).1 ∧ h ≤ (effectiveBounds w h mw mh).2
    · simp only [hfit, and_self, if_true]
    · simp only [hfit, if_false] at hr
      exact absurd hr (by decide)

/-- C1: an image already inside positive explicit bounds is returned
unchanged with `would_resize = false` — no resize, no upscale. -/
theorem C1_fits_never_resized (w h mw mh : ℕ) (hmw : 0 < mw) (hmh : 0 < mh)
    (hw : w ≤ mw) (hh : h ≤ mh) :
    calculateResizeDimensions w h (some mw) (some mh) = (w, h, false) := by
  unfold calculateResizeDimensions effectiveBounds
  have hmw' : mw ≠ 0 := hmw.ne'
  have hmh' : mh ≠ 0 := hmh.ne'
  simp [hmw', hmh', hw, hh]

/-- Witness for C1 at `(800, 600)` inside `1024×768`. -/
theorem C1_fits_never_resized_witness :
    calculateResizeDimensions 800 600 (some 1024) (some 768) = (800, 600, false) :=
  C1_fits_never_resized 800 600 1024 768 (by norm_num) (by norm_num)
    (by norm_num) (by norm_num)

/-- C2: whenever a resize occurs, both target dimensions are
`max 1 ⌊orig * scale⌋` for the one shared scale factor
`min(eff_w/orig_w, eff_h/orig_h)`, both are at least 1, and each is within
one unit below its exactly-scaled value (the one-pixel floor error). -/
theorem C2_shared_scale_factor (w h : ℕ) (mw mh : Option ℕ)
    (hw : 0 < w) (hh : 0 < h)
    (hr : (calculateResizeDimensions w h mw mh).2.2 = true) :
    calculateResizeDimensions w h mw mh =
      (max 1 ⌊(w : ℚ) * scaleFor w h mw mh⌋.toNat,
        max 1 ⌊(h : ℚ) * scaleFor w h mw mh⌋.toNat, true)
    ∧ 1 ≤ (calculateResizeDimensions w h mw mh).1
    ∧ 1 ≤ (calculateResizeDimensions w h mw mh).2.1
    ∧ (w : ℚ) * scaleFor w h mw mh - 1 < ((calculateResizeDimensions w h mw mh).1 : ℚ)
    ∧ ((calculateResizeDimensions w h mw mh).1 : ℚ) ≤ max 1 ((w : ℚ) * scaleFor w h mw mh)
    ∧ (h : ℚ) * scaleFor w h mw mh - 1 < ((calculateResizeDimensions w h mw mh).2.1 : ℚ)
    ∧ ((calculateResizeDimensions w h mw mh).2.1 : ℚ) ≤ max 1 ((h : ℚ) * scaleFor w h mw mh) := by
  have hscale : 0 ≤ scaleFor w h mw mh := by
    unfold scaleFor
    apply le_min
    · positivity
    · positivity
  have hwx : (0 : ℚ) ≤ (w : ℚ) * scaleFor w h mw mh := by positivity
  have hhx : (0 : ℚ) ≤ (h : ℚ) * scaleFor w h mw mh := by positivity
  have heq : calculateResizeDimensions w h mw mh =
      (max 1 ⌊(w : ℚ) * scaleFor w h mw mh⌋.toNat,
        max 1 ⌊(h : ℚ) * scaleFor w h mw mh⌋.toNat, true) := by
    unfold calculateResizeDimensions at hr ⊢
    by_cases h0 : mw = some 0 ∧ mh = some 0
    · simp [h0] at hr
    · rw [if_neg h0] at hr ⊢
      by_cases hfit : w ≤ (effectiveBounds w h mw mh).1 ∧ h ≤ (effectiveBounds w h mw mh).2
      · simp only [hfit, and_self, if_true] at hr
        exact absurd hr (by decide)
      · simp only [hfit, if_false]
        rfl
  refine ⟨heq, ?_, ?_, ?_, ?_, ?_, ?_⟩
  · rw [heq]; exact le_max_left _ _
  · rw [heq]; exact le_max_left _ _
  · rw [heq]; exact (floorClampBounds _ hwx).1
  · rw [heq]; exact (floorClampBounds _ hwx).2
  · rw [heq]; exact (floorClampBounds _ hhx).1
  · rw [heq]; exact (floorClampBounds _ hhx).2

/-- Witness for C2 at `2048×1536` under a `1024×1024` box. -/
theorem C2_shared_scale_factor_witness :
    calculateResizeDimensions 2048 1536 (some 1024) (some 1024) =
      (max 1 ⌊(2048 : ℚ) * scaleFor 2048 1536 (some 1024) (some 1024)⌋.toNat,
        max 1 ⌊(1536 : ℚ) * scaleFor 2048 1536 (some 1024) (some 1024)⌋.toNat, true)
    ∧ 1 ≤ (calculateResizeDimensions 2048 1536 (some 1024) (some 1024)).1 := by
  have hr : (calculateResizeDimensions 2048 1536 (some 1024) (some 1024)).2.2 = true := by
    norm_num [calculateResizeDimensions, effectiveBounds, min_def]
  have h := C2_shared_scale_factor 2048 1536 (some 1024) (some 1024)
    (by norm_num) (by norm_num) hr
  exact ⟨h.1, h.2.1⟩

/-- C3: `max_width = 0, max_height = 0` disables resizing entirely. -/
theorem C3_zero_zero_disables (w h : ℕ) :
    calculateResizeDimensions w h (some 0) (some 0) = (w, h, false) := by
  simp [calculateResizeDimensions]

/-- C4: `2048×1536` with `max_width` omitted and `max_height = 768` scales
by 0.5 via the height bound, giving `(1024, 768, true)`. -/
theorem C4_height_driven_scale :
    calculateResizeDimensions 2048 1536 none (some 768) = (1024, 768, true) := by
  norm_num [calculateResizeDimensions, effectiveBounds, min_def]
  all_goals decide

/-- C5: when the dimension calculation reports no resize, `_resize_image`
returns the identical input bytes with the original dimensions. -/
theorem C5_no_resize_identity (pil : PILModel) (data : List ℕ) (fmt : String)
    (mw mh : Option ℕ) (q : Option ℤ) (img : PILDecoded)
    (hdec : pil.decode data = some img)
    (hnr : (calculateResizeDimensions img.width img.height mw mh).2.2 = false) :
    resizeImage pil data fmt mw mh q = .ok (data, img.width, img.height) := by
  unfold resizeImage
  rw [hdec]
  simp [hnr]

/-- Concrete PIL stand-in used by witnesses: every byte string decodes to
a 2048×1536 PNG; re-encoding produces the byte `[0]`. -/
def testPil : PILModel :=
  ⟨fun _ => some ⟨2048, 1536, some "PNG"⟩, fun _ _ _ _ => [0]⟩

/-- Witness for C5: resizing disabled with `(0, 0)` returns the bytes. -/
theorem C5_no_resize_identity_witness :
    resizeImage testPil [1, 2, 3] "png" (some 0) (some 0) none
      = .ok ([1, 2, 3], 2048, 1536) :=
  C5_no_resize_identity testPil [1, 2, 3] "png" (some 0) (some 0) none
    ⟨2048, 1536, some "PNG"⟩ rfl (by simp [calculateResizeDimensions])

/-- C6 counterexample: at `orig_size = 227`, `2×1 → 1×1`, format "jpeg",
quality 90, the code returns 101 but the claimed single-floor formula
`max(floor(orig_size * pixel_ratio * quality/100), 100)` gives 102 — the
code floors the base estimate before applying the quality factor. -/
theorem C6_counterexample :
    estimateCompressedSize 227 2 1 1 1 "jpeg" (some 90) = 101
    ∧ max ⌊(227 : ℚ) * (((1 * 1 : ℕ) : ℚ) / ((2 * 1 : ℕ) : ℚ))
        * ((90 : ℚ) / 100)⌋.toNat 100 = 102
    ∧ (101 : ℕ) ≠ 102 := by
  refine ⟨?_, ?_, by norm_num⟩
  · norm_num [estimateCompressedSize, show isJpegFormat "jpeg" = true from by decide,
      show qualityTruthy (some 90) = true from by decide,
      show Int.toNat 113 = 113 from by decide]
    all_goals decide
  · norm_num
    all_goals decide

/-- C6 amended: `_estimate_compressed_size` returns
`max(floor(floor(orig_size * pixel_ratio) * quality/100), 100)` — the
quality factor (applied only when the lowercased format is jpeg/jpg and the
quality value is given and nonzero) multiplies the already-truncated base
estimate; `pixel_ratio` is `new_pixels/orig_pixels` guarded to 1 when
`orig_pixels = 0`, and the result is always at least 100. -/
theorem C6_amended_double_truncation (orig ow oh nw nh : ℕ) (fmt : String)
    (q : Option ℤ) :
    estimateCompressedSize orig ow oh nw nh fmt q =
      max (if isJpegFormat fmt = true ∧ qualityTruthy q = true then
          ⌊((⌊(orig : ℚ) * (if 0 < ow * oh then ((nw * nh : ℕ) : ℚ) / ((ow * oh : ℕ) : ℚ)
              else 1)⌋.toNat : ℕ) : ℚ) * ((q.getD 0 : ℚ) / 100)⌋.toNat
        else ⌊(orig : ℚ) * (if 0 < ow * oh then ((nw * nh : ℕ) : ℚ) / ((ow * oh : ℕ) : ℚ)
          else 1)⌋.toNat) 100
    ∧ 100 ≤ estimateCompressedSize orig ow oh nw nh fmt q := by
  constructor
  · rfl
  · exact le_max_right _ _

/-- C7: a provided quality is rejected exactly when it is outside
`[1, 100]`; 0 and 101 are rejected while 1 and 100 pass; and an invalid
quality makes `get_image` and `get_image_size_estimate` fail with the
invalid-quality error for every store and every decoder — before any blob
read or image decode. -/
theorem C7_quality_validation :
    (∀ q : ℤ, validateQuality (some q) = .error .invalidQuality ↔ (q < 1 ∨ q > 100))
    ∧ validateQuality none = .ok ()
    ∧ validateQuality (some 0) = .error .invalidQuality
    ∧ validateQuality (some 101) = .error .invalidQuality
    ∧ validateQuality (some 1) = .ok ()
    ∧ validateQuality (some 100) = .ok ()
    ∧ (∀ (pil : PILModel) (store : BlobStore) (blobId : String)
        (mw mh : Option ℕ) (q : ℤ), (q < 1 ∨ q > 100) →
        getImage pil store blobId mw mh (some q) = .error .invalidQuality
        ∧ getImageSizeEstimate pil store blobId mw mh (some q) = .error .invalidQuality) := by
  have hval : ∀ q : ℤ, validateQuality (some q) = .error .invalidQuality ↔ (q < 1 ∨ q > 100) := by
    intro q
    unfold validateQuality MIN_JPEG_QUALITY MAX_JPEG_QUALITY
    by_cases hq : q < 1 ∨ q > 100
    · simp [hq]
    · simp [hq]
  refine ⟨hval, rfl, rfl, rfl, rfl, rfl, ?_⟩
  intro pil store blobId mw mh q hq
  have hv : validateQuality (some q) = .error .invalidQuality := (hval q).2 hq
  constructor
  · unfold getImage
    rw [hv]
  · unfold getImageSizeEstimate
    rw [hv]

/-- Witness for C7 at quality 0 against an arbitrary empty store. -/
theorem C7_quality_validation_witness :
    getImage testPil (fun _ => none) "blob://1-aa.png" none none (some 0)
      = .error .invalidQuality :=
  (C7_quality_validation.2.2.2.2.2.2 testPil (fun _ => none) "blob://1-aa.png"
    none none 0 (Or.inl (by norm_num))).1

/-- C8: a blob whose mime type is absent or not `image/...` makes the three
image operations fail with the not-an-image error — for every decoder, so
no decode or resize happens — while `get_file` returns the raw bytes. -/
theorem C8_non_image_rejected (store : BlobStore) (blobId : String) (b : Blob)
    (hid : blobId ≠ "") (hstore : store blobId = some b)
    (hmime : isImageContentType b.mimeType = false) :
    ∀ (pil : PILModel) (mw mh : Option ℕ) (q : Option ℤ),
      validateQuality q = .ok () →
      getImage pil store blobId mw mh q = .error (.notAnImage b.mimeType)
      ∧ getImageInfo pil store blobId = .error (.notAnImage b.mimeType)
      ∧ getImageSizeEstimate pil store blobId mw mh q = .error (.notAnImage b.mimeType)
      ∧ getFile store blobId = .ok b.data := by
  intro pil mw mh q hq
  have hgb : getBlobBytes store blobId = .ok (b.data, b.mimeType, b.filename) := by
    unfold getBlobBytes
    rw [if_neg hid, hstore]
  refine ⟨?_, ?_, ?_, ?_⟩
  · unfold getImage
    rw [hq, hgb]
    simp [hmime]
  · unfold getImageInfo
    rw [hgb]
    simp [hmime]
  · unfold getImageSizeEstimate
    rw [hq, hgb]
    simp [hmime]
  · unfold getFile
    rw [hgb]

/-- A non-image blob fixture (a PDF) for the C8 witness. -/
def testPdfBlob : Blob := ⟨[7, 8], some "application/pdf", some "doc.pdf"⟩

/-- A one-entry store holding `testPdfBlob` for the C8 witness. -/
def testPdfStore : BlobStore :=
  fun s => if s = "blob://1-bb.pdf" then some testPdfBlob else none

/-- Witness for C8 on the PDF fixture. -/
theorem C8_non_image_rejected_witness :
    getImage testPil testPdfStore "blob://1-bb.pdf" none none none
      = .error (.notAnImage (some "application/pdf"))
    ∧ getFile testPdfStore "blob://1-bb.pdf" = .ok [7, 8] := by
  have h := C8_non_image_rejected testPdfStore "blob://1-bb.pdf" testPdfBlob
    (by decide) (by simp [testPdfStore]) (by decide) testPil none none none rfl
  exact ⟨h.1, h.2.2.2⟩

/-- Helper: `_validate_quality` either passes or raises the invalid-quality
error; no other outcome exists. -/
theorem validateQualityCases (q : Option ℤ) :
    validateQuality q = .ok () ∨ validateQuality q = .error .invalidQuality := by
  unfold validateQuality
  match q with
  | none => exact Or.inl rfl
  | some v =>
      by_cases hv : v < MIN_JPEG_QUALITY ∨ v > MAX_JPEG_QUALITY
      · exact Or.inr (by simp [hv])
      · exact Or.inl (by simp [hv])

/-- C9: an upload with empty data or an empty filename fails with a
validation error, for every storage backend and every decoder — before any
hashing, decoding or storage write. -/
theorem C9_empty_upload_rejected (data : List ℕ) (filename : String)
    (h : data = [] ∨ filename = "") :
    ∀ (storage : StorageModel) (pil : PILModel) (mw mh : Option ℕ)
      (q ttl : Option ℤ),
      (∃ e, uploadFileResource storage data filename ttl = .error e
        ∧ isValidationError e = true)
      ∧ (∃ e, uploadImageResource pil storage data filename mw mh q ttl = .error e
        ∧ isValidationError e = true) := by
  intro storage pil mw mh q ttl
  constructor
  · by_cases hd : data = []
    · exact ⟨.emptyData, by simp [uploadFileResource, hd], rfl⟩
    · have hf : filename = "" := h.resolve_left hd
      exact ⟨.emptyFilename, by simp [uploadFileResource, hd, hf], rfl⟩
  · rcases validateQualityCases q with hq | hq
    · by_cases hd : data = []
      · exact ⟨.emptyData, by simp [uploadImageResource, hq, hd], rfl⟩
      · have hf : filename = "" := h.resolve_left hd
        exact ⟨.emptyFilename, by simp [uploadImageResource, hq, hd, hf], rfl⟩
    · exact ⟨.invalidQuality, by simp [uploadImageResource, hq], rfl⟩

/-- A storage stand-in for the C9 witness; the operations must fail before
ever consulting it. -/
def testStorage : StorageModel :=
  ⟨fun _ _ _ _ => ⟨"blob://1-aa.png", "aa"⟩, fun _ => none⟩

/-- Witness for C9 at empty data. -/
theorem C9_empty_upload_rejected_witness :
    (∃ e, uploadFileResource testStorage [] "f.bin" none = .error e
      ∧ isValidationError e = true)
    ∧ (∃ e, uploadImageResource testPil testStorage [] "f.png" none none none none
      = .error e ∧ isValidationError e = true) :=
  C9_empty_upload_rejected [] "f.bin" (Or.inl rfl) testStorage testPil none none
    none none |>.1 |> fun hfile =>
      ⟨hfile, (C9_empty_upload_rejected [] "f.png" (Or.inl rfl) testStorage testPil
        none none none none).2⟩

/-- C10: the `(estimated_width, estimated_height, would_resize)` triple the
dry-run `get_image_size_estimate` reports is exactly
`_calculate_resize_dimensions` on the decoded dimensions, and any
successful `_resize_image` on the same bytes (hence `get_image`) outputs
exactly those target dimensions — both sides are the one pure function. -/
theorem C10_dry_run_matches_resize (pil : PILModel) (store : BlobStore)
    (blobId : String) (b : Blob) (img : PILDecoded) (mw mh : Option ℕ)
    (q : Option ℤ) (est : ImageSizeEstimate)
    (hid : blobId ≠ "") (hstore : store blobId = some b)
    (hdec : pil.decode b.data = some img)
    (hest : getImageSizeEstimate pil store blobId mw mh q = .ok est) :
    (est.estimatedWidth, est.estimatedHeight, est.wouldResize)
      = calculateResizeDimensions img.width img.height mw mh
    ∧ ∀ (fmt : String) (out : List ℕ × ℕ × ℕ),
        resizeImage pil b.data fmt mw mh q = .ok out →
        out.2 = ((calculateResizeDimensions img.width img.height mw mh).1,
          (calculateResizeDimensions img.width img.height mw mh).2.1) := by
  have hgb : getBlobBytes store blobId = .ok (b.data, b.mimeType, b.filename) := by
    unfold getBlobBytes
    rw [if_neg hid, hstore]
  constructor
  · rcases validateQualityCases q with hq | hq
    · unfold getImageSizeEstimate at hest
      rw [hq, hgb] at hest
      by_cases hm : isImageContentType b.mimeType = false
      · simp [hm] at hest
      · have hm' : isImageContentType b.mimeType = true := by
          cases hval : isImageContentType b.mimeType
          · exact absurd hval hm
          · rfl
        simp only [hm', Bool.true_eq_false, if_false, hdec] at hest
        rw [Except.ok.injEq] at hest
        subst hest
        rfl
    · unfold getImageSizeEstimate at hest
      rw [hq] at hest
      exact absurd hest (by simp)
  · intro fmt out hro
    unfold resizeImage at hro
    rw [hdec] at hro
    by_cases hr : (calculateResizeDimensions img.width img.height mw mh).2.2 = false
    · simp [hr] at hro
      subst hro
      have hno := calcNoResize img.width img.height mw mh hr
      rw [hno]
    · simp [hr] at hro
      subst hro
      rfl

/-- An image blob fixture (a PNG) for the C10 witness. -/
def testImageBlob : Blob := ⟨[1, 2, 3], some "image/png", some "img.png"⟩

/-- A one-entry store holding `testImageBlob` for the C10 witness. -/
def testImageStore : BlobStore :=
  fun s => if s = "blob://1-cc.png" then some testImageBlob else none

/-- Witness for C10 on the PNG fixture with resizing disabled. -/
theorem C10_dry_run_matches_resize_witness :
    getImageSizeEstimate testPil testImageStore "blob://1-cc.png" (some 0) (some 0) none
      = .ok ⟨2048, 1536, 2048, 1536, 3, 100, false, "png", none⟩
    ∧ ((2048 : ℕ), (1536 : ℕ), false)
      = calculateResizeDimensions 2048 1536 (some 0) (some 0) := by
  have h1 : isImageContentType (some "image/png") = true := by decide
  have h2 : extractFormat "image/png" = "png" := by decide
  have h3 : isJpegFormat "png" = false := by decide
  have hcalc : calculateResizeDimensions 2048 1536 (some 0) (some 0)
      = (2048, 1536, false) := by simp [calculateResizeDimensions]
  have hsize : estimateCompressedSize 3 2048 1536 2048 1536 "png" none = 100 := by
    norm_num [estimateCompressedSize, h3]
  have hest : getImageSizeEstimate testPil testImageStore "blob://1-cc.png"
      (some 0) (some 0) none
      = .ok ⟨2048, 1536, 2048, 1536, 3, 100, false, "png", none⟩ := by
    unfold getImageSizeEstimate getBlobBytes testImageStore
    simp [testPil, testImageBlob, validateQuality, h1, h2, h3, hcalc, hsize]
  refine ⟨hest, ?_⟩
  exact (C10_dry_run_matches_resize testPil testImageStore "blob://1-cc.png"
    testImageBlob ⟨2048, 1536, some "PNG"⟩ (some 0) (some 0) none
    ⟨2048, 1536, 2048, 1536, 3, 100, false, "png", none⟩
    (by decide) (by simp [testImageStore]) rfl hest).1
